import Mathlib

/-!
Shallow embedding of `xchainer/routines/creation.cc`: strided byte-footprint
computation (`internal::GetRequiredBytes`), the array construction routines
(`Empty`, `Full`, `Zeros`, `Ones`, `Arange` and its overloads, the `*Like`
family, `Copy`), together with the auxiliary data model (shapes, strides,
dtypes, scalars) they use.  Machine integers are modelled as `Nat`/`Int`
(all quantities involved stay far below the 64-bit range on the reachable
paths), the real-valued representation used by `Arange` sizing as `ℚ`, and
exceptions as `Except`.  Device allocation requests are recorded explicitly
as the list of requested byte counts so that ordering of validation versus
allocation is visible in the model.
-/

set_option autoImplicit false

namespace Xchainer

/-- Modelled from the spec: the dtype kind classification (boolean, integer,
float) of `xchainer/dtype.h`, which is not under `src/`. -/
inductive DtypeKind
  | bool
  | int
  | float
  deriving DecidableEq, Repr

/-- Modelled from the spec: the element type tag of `xchainer/dtype.h`
(not under `src/`), carrying a fixed byte size and a kind. -/
inductive Dtype
  | bool
  | int8
  | int16
  | int32
  | int64
  | uint8
  | float32
  | float64
  deriving DecidableEq, Repr

/-- Modelled from the spec: `GetElementSize` of `xchainer/dtype.h`
(not under `src/`): the fixed byte size of each dtype. -/
def GetElementSize : Dtype → Nat
  | .bool => 1
  | .int8 => 1
  | .int16 => 2
  | .int32 => 4
  | .int64 => 8
  | .uint8 => 1
  | .float32 => 4
  | .float64 => 8

/-- Modelled from the spec: `GetKind` of `xchainer/dtype.h` (not under
`src/`): the kind classification of each dtype. -/
def GetKind : Dtype → DtypeKind
  | .bool => .bool
  | .int8 => .int
  | .int16 => .int
  | .int32 => .int
  | .int64 => .int
  | .uint8 => .int
  | .float32 => .float
  | .float64 => .float

/-- Modelled from the spec: a `Scalar` of `xchainer/scalar.h` (not under
`src/`) is a tagged value paired with a dtype, convertible to a real-valued
representation (`static_cast<double>` in the source, modelled as `ℚ`) for
range-size arithmetic. -/
structure Scalar where
  dtype : Dtype
  val : ℚ
  deriving DecidableEq, Repr

/-- A shape: per-dimension element counts (non-negative by construction). -/
abbrev Shape := List Nat

/-- Strides: per-dimension signed byte offsets, same length as the shape. -/
abbrev Strides := List Int

/-- Modelled from the spec: `Shape::GetTotalSize` of `xchainer/shape.h`
(not under `src/`): the total element count, the product of the dimensions
(0 if any dimension is 0, 1 for the zero-dimensional shape). -/
def totalSize (shape : Shape) : Nat := shape.prod

/-- Modelled from the spec: the `Strides{shape, dtype}` constructor of
`xchainer/strides.h` (not under `src/`): canonical row-major strides, in
which dimension `i` has stride `elementSize * Π_{j > i} shape[j]`. -/
def contiguousStrides : Shape → Nat → Strides
  | [], _ => []
  | _ :: rest, es => ((es * totalSize rest : Nat) : Int) :: contiguousStrides rest es

/-- The array value: shape, strides, dtype, the logical element values in
row-major order, and the identifiers of graph (derivation-history) nodes the
array participates in.  The device handle and raw buffer of the source are
abstracted into the element list. -/
structure Array where
  shape : Shape
  strides : Strides
  dtype : Dtype
  elems : List ℚ
  graphNodes : List Nat
  deriving DecidableEq, Repr

/-- An array is contiguous iff its strides are the canonical row-major
strides for its shape and element size (`Array::IsContiguous`). -/
abbrev IsContiguous (a : Array) : Prop :=
  a.strides = contiguousStrides a.shape (GetElementSize a.dtype)

namespace internal

/-- `internal::MakeArray`: wraps shape/strides/dtype and a fresh buffer into
an array value; a freshly made array is a leaf (no graph nodes). -/
def MakeArray (shape : Shape) (strides : Strides) (dtype : Dtype) (elems : List ℚ) : Array :=
  ⟨shape, strides, dtype, elems, []⟩

/-- `internal::GetRequiredBytes(shape, strides, element_size)` from
`creation.cc`: 0 when the total element count is 0; otherwise the element
size plus, for each dimension, `(shape[i] - 1) * |strides[i]|`.  The
`assert(shape.ndim() == strides.ndim())` precondition appears as a length
hypothesis on the theorems that need it. -/
def GetRequiredBytes (shape : Shape) (strides : Strides) (element_size : Nat) : Nat :=
  if totalSize shape = 0 then 0
  else element_size + (List.zipWith (fun d st => (d - 1) * st.natAbs) shape strides).sum

/-- `internal::Empty(shape, dtype, strides, device)` from `creation.cc`: the
custom-stride allocation path.  The first component is the byte count
requested from `device.Allocate`. -/
def Empty (shape : Shape) (dtype : Dtype) (strides : Strides) : Nat × Array :=
  (GetRequiredBytes shape strides (GetElementSize dtype),
   MakeArray shape strides dtype (List.replicate (totalSize shape) 0))

/-- `internal::FromHostData` from `creation.cc`: materializes host data on
the device with the given custom strides; the first component is the byte
count computed by `GetRequiredBytes` and passed to `FromHostMemory`. -/
def FromHostData (shape : Shape) (dtype : Dtype) (data : List ℚ) (strides : Strides) :
    Nat × Array :=
  (GetRequiredBytes shape strides (GetElementSize dtype),
   MakeArray shape strides dtype data)

end internal

/-- `Empty(shape, dtype, device)` from `creation.cc`: the default
(contiguous) allocation path.  The first component is the byte count
requested from `device.Allocate`, computed as the closed form
`shape.GetTotalSize() * GetElementSize(dtype)`; the array wraps the buffer
with canonical row-major strides.  Uninitialized element values are
modelled as zeros (no claim reads them before a fill). -/
def Empty (shape : Shape) (dtype : Dtype) : Nat × Array :=
  (totalSize shape * GetElementSize dtype,
   internal.MakeArray shape (contiguousStrides shape (GetElementSize dtype)) dtype
     (List.replicate (totalSize shape) 0))

/-- Modelled from the spec: `Array::Fill` (declared in `xchainer/array.h`,
not under `src/`): overwrites every element with the fill value.  Shape,
strides and dtype are untouched. -/
def Array.Fill (a : Array) (v : Scalar) : Array :=
  { a with elems := List.replicate (totalSize a.shape) v.val }

/-- `Full(shape, fill_value, dtype, device)` from `creation.cc`: allocate
via the default path, then fill every element. -/
def Full (shape : Shape) (fill_value : Scalar) (dtype : Dtype) : Nat × Array :=
  ((Empty shape dtype).1, Array.Fill (Empty shape dtype).2 fill_value)

/-- `Full(shape, fill_value, device)` from `creation.cc`: dtype taken from
the fill value. -/
def FullDefaultDtype (shape : Shape) (fill_value : Scalar) : Nat × Array :=
  Full shape fill_value fill_value.dtype

/-- Modelled from the spec: the dtype tag a literal integer scalar argument
carries (`xchainer/scalar.h` is not under `src/`).  Every routine below that
receives these default scalars passes its dtype explicitly, so this tag
choice affects no claim. -/
def scalarZero : Scalar := ⟨Dtype.int64, 0⟩

/-- Modelled from the spec: the literal `1` default step scalar; see
`scalarZero`. -/
def scalarOne : Scalar := ⟨Dtype.int64, 1⟩

/-- `Zeros(shape, dtype, device)` from `creation.cc`. -/
def Zeros (shape : Shape) (dtype : Dtype) : Nat × Array := Full shape scalarZero dtype

/-- `Ones(shape, dtype, device)` from `creation.cc`. -/
def Ones (shape : Shape) (dtype : Dtype) : Nat × Array := Full shape scalarOne dtype

/-- The two error classes thrown by `Arange` in `creation.cc`:
`invalidArgument` models the `XchainerError` thrown for a zero step (the
spec's InvalidArgument), `domainError` models the `DtypeError` thrown for a
boolean range longer than 2 (the spec's DomainError). -/
inductive Err
  | invalidArgument
  | domainError
  deriving DecidableEq, Repr

/-- The output-size computation of `Arange` (`creation.cc` lines 74-82):
convert to the real-valued representation, swap start/stop and negate the
step when the step is negative, then `max(0, ceil((stop - start) / step))`. -/
def arangeSize (start stop step : ℚ) : Int :=
  match (if step < 0 then (stop, start, -step) else (start, stop, step)) with
  | (s, e, st) => max 0 ⌈(e - s) / st⌉

/-- Modelled from the spec: `Device::Arange(start, step, out)` (the device
range-population kernel, not under `src/`): fills `out` in place with the
arithmetic progression starting at `start` with increment `step`. -/
def deviceArange (start step : Scalar) (out : Array) : Array :=
  { out with
    elems := (List.range (totalSize out.shape)).map (fun i => start.val + (i : ℚ) * step.val) }

/-- `Arange(start, stop, step, dtype, device)` from `creation.cc`, the
canonical range algorithm.  The first component is the list of byte counts
requested from `device.Allocate`, in order, so the position of validation
relative to allocation is preserved: the zero-step check, then the size
computation, then the boolean-length check, and only then the allocation
and population. -/
def Arange (start stop step : Scalar) (dtype : Dtype) : List Nat × Except Err Array :=
  if step.val = 0 then ([], Except.error Err.invalidArgument)
  else if 2 < arangeSize start.val stop.val step.val ∧ dtype = Dtype.bool then
    ([], Except.error Err.domainError)
  else
    ([(Empty [(arangeSize start.val stop.val step.val).toNat] dtype).1],
     Except.ok (deviceArange start step
       (Empty [(arangeSize start.val stop.val step.val).toNat] dtype).2))

/-- The dtype-inference rule of the `Arange(start, stop, step, device)`
overload (`creation.cc` lines 92-97): `Dtype::kFloat64` when start or stop
has float kind, otherwise the step's dtype. -/
def arangeInferredDtype (start stop step : Scalar) : Dtype :=
  if GetKind start.dtype = DtypeKind.float ∨ GetKind stop.dtype = DtypeKind.float then
    Dtype.float64
  else step.dtype

/-- `Arange(start, stop, step, device)` from `creation.cc`. -/
def ArangeInfer (start stop step : Scalar) : List Nat × Except Err Array :=
  Arange start stop step (arangeInferredDtype start stop step)

/-- `Arange(start, stop, dtype, device)` from `creation.cc`: default step 1. -/
def ArangeStartStopDtype (start stop : Scalar) (dtype : Dtype) : List Nat × Except Err Array :=
  Arange start stop scalarOne dtype

/-- `Arange(stop, dtype, device)` from `creation.cc`: defaults start 0,
step 1. -/
def ArangeStopDtype (stop : Scalar) (dtype : Dtype) : List Nat × Except Err Array :=
  Arange scalarZero stop scalarOne dtype

/-- `Arange(stop, device)` from `creation.cc`: defaults start 0, step 1, and
dtype resolved to `stop.dtype()`. -/
def ArangeStop (stop : Scalar) : List Nat × Except Err Array :=
  Arange scalarZero stop scalarOne stop.dtype

/-- `EmptyLike(a, device)` from `creation.cc`. -/
def EmptyLike (a : Array) : Nat × Array := Empty a.shape a.dtype

/-- `FullLike(a, fill_value, device)` from `creation.cc`. -/
def FullLike (a : Array) (fill_value : Scalar) : Nat × Array := Full a.shape fill_value a.dtype

/-- `ZerosLike(a, device)` from `creation.cc`. -/
def ZerosLike (a : Array) : Nat × Array := Zeros a.shape a.dtype

/-- `OnesLike(a, device)` from `creation.cc`. -/
def OnesLike (a : Array) : Nat × Array := Ones a.shape a.dtype

/-- Modelled from the spec: `Array::AsConstant({}, CopyKind::kCopy)`
(`xchainer/array.cc` is not under `src/`): a copying detach — same shape,
dtype and element values, canonical contiguous strides, and the derivation
history severed (no graph nodes). -/
def Array.AsConstant (a : Array) : Array :=
  internal.MakeArray a.shape (contiguousStrides a.shape (GetElementSize a.dtype)) a.dtype a.elems

/-- `Copy(a)` from `creation.cc`: `a.AsConstant({}, CopyKind::kCopy)`; the
source asserts the result is contiguous. -/
def Copy (a : Array) : Array := Array.AsConstant a

/-- Second definition for the refinement claim about dtype inference,
following the spec's words: "if either start or stop has float kind, promote
to the highest-precision float dtype; otherwise use step's dtype", where the
highest-precision float dtype is the float-kind dtype of maximal element
size. -/
def specInferredDtype (start stop step : Scalar) : Dtype :=
  if GetKind start.dtype = DtypeKind.float ∨ GetKind stop.dtype = DtypeKind.float then
    Dtype.float64
  else step.dtype


/-! ## Helper lemmas -/

theorem totalSize_ne_zero_all_pos {shape : Shape} (h : totalSize shape ≠ 0) :
    ∀ d ∈ shape, 1 ≤ d := by
  intro d hd
  by_contra hlt
  have hd0 : d = 0 := by omega
  exact h (List.prod_eq_zero (hd0 ▸ hd))

theorem sum_contiguous (es : Nat) :
    ∀ (shape : Shape), (∀ d ∈ shape, 1 ≤ d) →
      es + (List.zipWith (fun d st => (d - 1) * st.natAbs) shape (contiguousStrides shape es)).sum
        = totalSize shape * es
  | [], _ => by simp [totalSize, contiguousStrides]
  | d :: rest, h => by
    have hd : 1 ≤ d := h d (List.mem_cons_self d rest)
    have ih := sum_contiguous es rest (fun x hx => h x (List.mem_cons_of_mem d hx))
    obtain ⟨n, rfl⟩ : ∃ n, d = n + 1 := ⟨d - 1, by omega⟩
    have habs : (((es * totalSize rest : Nat) : Int)).natAbs = es * totalSize rest :=
      Int.natAbs_ofNat _
    simp only [contiguousStrides, List.zipWith_cons_cons, List.sum_cons, habs,
      Nat.add_sub_cancel]
    calc es + (n * (es * totalSize rest)
            + (List.zipWith (fun d st => (d - 1) * st.natAbs) rest
                (contiguousStrides rest es)).sum)
        = (es + (List.zipWith (fun d st => (d - 1) * st.natAbs) rest
            (contiguousStrides rest es)).sum) + n * (es * totalSize rest) := by ring
      _ = totalSize rest * es + n * (es * totalSize rest) := by rw [ih]
      _ = totalSize ((n + 1) :: rest) * es := by simp [totalSize] ; ring

theorem zipWith_natAbs_cast :
    ∀ (shape : Shape) (strides : Strides), (∀ d ∈ shape, 1 ≤ d) →
      (((List.zipWith (fun d st => (d - 1) * st.natAbs) shape strides).sum : Nat) : Int)
        = (List.zipWith (fun (d : Nat) (st : Int) => ((d : Int) - 1) * |st|) shape strides).sum
  | [], _, _ => by simp
  | _ :: _, [], _ => by simp
  | d :: ds, st :: sts, h => by
    have hd : 1 ≤ d := h d (List.mem_cons_self d ds)
    have ih := zipWith_natAbs_cast ds sts (fun x hx => h x (List.mem_cons_of_mem d hx))
    have hcast : (((d - 1) * st.natAbs : ℕ) : ℤ) = ((d : ℤ) - 1) * |st| := by
      rw [Int.abs_eq_natAbs]
      push_cast [Nat.cast_sub hd]
      ring
    simp only [List.zipWith_cons_cons, List.sum_cons, Nat.cast_add, hcast, ih]

theorem grb_natAbs_congr (shape : Shape) (s₁ s₂ : Strides) (es : Nat)
    (h : s₁.map Int.natAbs = s₂.map Int.natAbs) :
    internal.GetRequiredBytes shape s₁ es = internal.GetRequiredBytes shape s₂ es := by
  unfold internal.GetRequiredBytes
  have key : List.zipWith (fun d st => (d - 1) * st.natAbs) shape s₁
      = List.zipWith (fun d st => (d - 1) * st.natAbs) shape s₂ := by
    have e1 : List.zipWith (fun d st => (d - 1) * st.natAbs) shape s₁
        = List.zipWith (fun d n => (d - 1) * n) shape (s₁.map Int.natAbs) := by
      rw [List.zipWith_map_right]
    have e2 : List.zipWith (fun d st => (d - 1) * st.natAbs) shape s₂
        = List.zipWith (fun d n => (d - 1) * n) shape (s₂.map Int.natAbs) := by
      rw [List.zipWith_map_right]
    rw [e1, e2, h]
  rw [key]

theorem map_natAbs_set_neg :
    ∀ (l : List Int) (i : Nat),
      (l.set i (-(l.getD i 0))).map Int.natAbs = l.map Int.natAbs
  | [], _ => rfl
  | a :: t, 0 => by simp [List.set, List.getD]
  | a :: t, i + 1 => by
    simp only [List.set, List.getD_cons_succ, List.map_cons]
    rw [map_natAbs_set_neg t i]

/-! ## Claim theorems -/

/-- C1: for every shape and strides of equal ndim and every element size,
`GetRequiredBytes` returns 0 when the total element count is 0, and
otherwise `elementSize + Σ_i (shape[i] - 1) * |strides[i]|`; for the
zero-dimensional shape it returns exactly the element size. -/
theorem required_bytes_spec (shape : Shape) (strides : Strides) (es : Nat)
    (hndim : shape.length = strides.length) :
    (totalSize shape = 0 → internal.GetRequiredBytes shape strides es = 0)
    ∧ (totalSize shape ≠ 0 →
        ((internal.GetRequiredBytes shape strides es : Nat) : Int)
          = es + (List.zipWith (fun (d : Nat) (st : Int) => ((d : Int) - 1) * |st|) shape strides).sum)
    ∧ (shape = [] → internal.GetRequiredBytes shape strides es = es) := by
  refine ⟨?_, ?_, ?_⟩
  · intro h0
    unfold internal.GetRequiredBytes
    rw [if_pos h0]
  · intro hne
    unfold internal.GetRequiredBytes
    rw [if_neg hne]
    push_cast [zipWith_natAbs_cast shape strides (totalSize_ne_zero_all_pos hne)]
    ring
  · rintro rfl
    unfold internal.GetRequiredBytes
    simp [totalSize]

theorem required_bytes_spec_witness :
    ([2, 3] : Shape).length = ([12, 4] : Strides).length
    ∧ (totalSize [2, 3] ≠ 0 →
        ((internal.GetRequiredBytes [2, 3] [12, 4] 4 : Nat) : Int)
          = 4 + (List.zipWith (fun (d : Nat) (st : Int) => ((d : Int) - 1) * |st|) [2, 3] [12, 4]).sum) := by
  refine ⟨rfl, ?_⟩
  exact (required_bytes_spec [2, 3] [12, 4] 4 rfl).2.1

/-- C4: `Copy(a)` returns an array with the same shape, dtype and
elementwise-equal values, the result is contiguous, and it is a detached
leaf with no derivation history. -/
theorem copy_spec (a : Array) :
    (Copy a).shape = a.shape ∧ (Copy a).dtype = a.dtype ∧ (Copy a).elems = a.elems
    ∧ IsContiguous (Copy a) ∧ (Copy a).graphNodes = [] :=
  ⟨rfl, rfl, rfl, rfl, rfl⟩

/-- C5: the byte count the default (contiguous) allocation path `Empty`
requests from the device is `total element count * element size`, and this
closed form equals `GetRequiredBytes` evaluated at the canonical row-major
strides for that shape and element size. -/
theorem empty_alloc_eq_required_bytes (shape : Shape) (dtype : Dtype) :
    (Empty shape dtype).1 = totalSize shape * GetElementSize dtype
    ∧ (Empty shape dtype).1
        = internal.GetRequiredBytes shape (contiguousStrides shape (GetElementSize dtype))
            (GetElementSize dtype) := by
  refine ⟨rfl, ?_⟩
  show totalSize shape * GetElementSize dtype = _
  unfold internal.GetRequiredBytes
  by_cases h0 : totalSize shape = 0
  · rw [if_pos h0, h0, Nat.zero_mul]
  · rw [if_neg h0, sum_contiguous (GetElementSize dtype) shape (totalSize_ne_zero_all_pos h0)]

/-- C6: `GetRequiredBytes` is invariant under flipping the sign of any
single stride, and the concrete reversed axis of the spec, shape `(4,)`
with stride `(-4,)` and element size 4, costs 16 bytes, the same as stride
`(4,)`. -/
theorem required_bytes_neg_stride_invariant :
    (∀ (shape : Shape) (strides : Strides) (es i : Nat),
        internal.GetRequiredBytes shape (strides.set i (-(strides.getD i 0))) es
          = internal.GetRequiredBytes shape strides es)
    ∧ internal.GetRequiredBytes [4] [-4] 4 = 16
    ∧ internal.GetRequiredBytes [4] [4] 4 = 16 := by
  refine ⟨?_, by decide, by decide⟩
  intro shape strides es i
  exact grb_natAbs_congr shape _ strides es (map_natAbs_set_neg strides i)
theorem arangeSize_eq_ceil (start stop step : ℚ) :
    arangeSize start stop step = max 0 ⌈(stop - start) / step⌉ := by
  unfold arangeSize
  by_cases hneg : step < 0
  · rw [if_pos hneg]
    show max 0 ⌈(start - stop) / (-step)⌉ = max 0 ⌈(stop - start) / step⌉
    rw [div_neg, ← neg_div, neg_sub]
  · rw [if_neg hneg]

theorem arangeSize_symm (start stop step : ℚ) :
    arangeSize stop start (-step) = arangeSize start stop step := by
  unfold arangeSize
  rcases lt_trichotomy step 0 with hneg | hzero | hpos
  · rw [if_neg (not_lt.mpr (le_of_lt (neg_pos.mpr hneg))), if_pos hneg]
  · subst hzero
    simp
  · rw [if_pos (neg_lt_zero.mpr hpos), if_neg (not_lt.mpr (le_of_lt hpos))]
    show max 0 ⌈(stop - start) / (-(-step))⌉ = max 0 ⌈(stop - start) / step⌉
    rw [neg_neg]

theorem arange_ok_dtype (start stop step : Scalar) (dtype : Dtype) (d : Dtype)
    (h : (Arange start stop step dtype).2.toOption.map Array.dtype = some d) : d = dtype := by
  unfold Arange at h
  by_cases h0 : step.val = 0
  · rw [if_pos h0] at h
    simp [Except.toOption] at h
  · rw [if_neg h0] at h
    by_cases hb : 2 < arangeSize start.val stop.val step.val ∧ dtype = Dtype.bool
    · rw [if_pos hb] at h
      simp [Except.toOption] at h
    · rw [if_neg hb] at h
      simp [Except.toOption, deviceArange, Empty, internal.MakeArray] at h
      exact h.symm

theorem arangeStop_float32_eval :
    (ArangeStop ⟨Dtype.float32, 5⟩).2.toOption.map Array.dtype = some Dtype.float32 := by
  show (Arange scalarZero ⟨Dtype.float32, 5⟩ scalarOne Dtype.float32).2.toOption.map Array.dtype
      = some Dtype.float32
  unfold Arange
  rw [if_neg (by norm_num [scalarOne] : ¬(scalarOne.val = 0))]
  rw [if_neg (by simp :
    ¬(2 < arangeSize scalarZero.val (⟨Dtype.float32, 5⟩ : Scalar).val scalarOne.val
        ∧ Dtype.float32 = Dtype.bool))]
  rfl

/-- C2: for every `Arange` request with nonzero step, the output length is
`max(0, ceil((stop - start) / step))`; the negative-step normalization
(swap start/stop, negate step) computes exactly this value, and sizing is
direction-symmetric. -/
theorem arange_length_spec (start stop step : Scalar) (dtype : Dtype) (s : List Nat)
    (hstep : step.val ≠ 0)
    (hok : (Arange start stop step dtype).2.toOption.map Array.shape = some s) :
    s = [(max 0 ⌈(stop.val - start.val) / step.val⌉).toNat]
    ∧ arangeSize start.val stop.val step.val = max 0 ⌈(stop.val - start.val) / step.val⌉
    ∧ arangeSize stop.val start.val (-step.val) = arangeSize start.val stop.val step.val := by
  refine ⟨?_, arangeSize_eq_ceil _ _ _, arangeSize_symm _ _ _⟩
  unfold Arange at hok
  rw [if_neg hstep] at hok
  by_cases hb : 2 < arangeSize start.val stop.val step.val ∧ dtype = Dtype.bool
  · rw [if_pos hb] at hok
    simp [Except.toOption] at hok
  · rw [if_neg hb] at hok
    simp [Except.toOption, deviceArange, Empty, internal.MakeArray] at hok
    rw [← hok, arangeSize_eq_ceil _ _ _]

theorem arange_length_spec_witness :
    (Arange ⟨Dtype.int32, 0⟩ ⟨Dtype.int32, 10⟩ ⟨Dtype.int32, 3⟩ Dtype.int32).2.toOption.map
        Array.shape = some [4]
    ∧ (Arange ⟨Dtype.int32, 10⟩ ⟨Dtype.int32, 0⟩ ⟨Dtype.int32, -3⟩ Dtype.int32).2.toOption.map
        Array.shape = some [4]
    ∧ arangeSize 10 0 (-3) = arangeSize 0 10 3 := by
  have hc : (⌈(((10:ℚ)) - 0) / 3⌉ : ℤ) = 4 := by
    rw [Int.ceil_eq_iff]
    norm_num
  have hs : arangeSize 0 10 3 = 4 := by
    unfold arangeSize
    rw [if_neg (by norm_num : ¬((3:ℚ) < 0))]
    show max 0 ⌈(((10:ℚ)) - 0) / 3⌉ = 4
    rw [hc]
    decide
  have hs2 : arangeSize 10 0 (-3) = 4 := by rw [arangeSize_symm 0 10 3] ; exact hs
  have e1 : (Arange ⟨Dtype.int32, 0⟩ ⟨Dtype.int32, 10⟩ ⟨Dtype.int32, 3⟩
      Dtype.int32).2.toOption.map Array.shape = some [4] := by
    unfold Arange
    rw [if_neg (by norm_num : ¬((⟨Dtype.int32, 3⟩ : Scalar).val = 0))]
    rw [if_neg (by simp : ¬(2 < arangeSize (⟨Dtype.int32, 0⟩ : Scalar).val
        (⟨Dtype.int32, 10⟩ : Scalar).val (⟨Dtype.int32, 3⟩ : Scalar).val
        ∧ Dtype.int32 = Dtype.bool))]
    show some [(arangeSize 0 10 3).toNat] = some [4]
    rw [hs]
    rfl
  have e2 : (Arange ⟨Dtype.int32, 10⟩ ⟨Dtype.int32, 0⟩ ⟨Dtype.int32, -3⟩
      Dtype.int32).2.toOption.map Array.shape = some [4] := by
    unfold Arange
    rw [if_neg (by norm_num : ¬((⟨Dtype.int32, -3⟩ : Scalar).val = 0))]
    rw [if_neg (by simp : ¬(2 < arangeSize (⟨Dtype.int32, 10⟩ : Scalar).val
        (⟨Dtype.int32, 0⟩ : Scalar).val (⟨Dtype.int32, -3⟩ : Scalar).val
        ∧ Dtype.int32 = Dtype.bool))]
    show some [(arangeSize 10 0 (-3)).toNat] = some [4]
    rw [hs2]
    rfl
  have h := arange_length_spec ⟨Dtype.int32, 0⟩ ⟨Dtype.int32, 10⟩ ⟨Dtype.int32, 3⟩
      Dtype.int32 [4] (by norm_num) e1
  exact ⟨e1, e2, h.2.2⟩

/-- C3 counterexample: `Arange(stop, device)` resolves the dtype to
`stop.dtype()` even when `stop` has float kind, so a `float32` stop yields a
`float32` result, not the highest-precision float dtype (`float64`) the
claim requires. -/
theorem arange_dtype_inference_counterexample :
    GetKind Dtype.float32 = DtypeKind.float
    ∧ GetElementSize Dtype.float32 < GetElementSize Dtype.float64
    ∧ (ArangeStop ⟨Dtype.float32, 5⟩).2.toOption.map Array.dtype = some Dtype.float32
    ∧ Dtype.float32 ≠ Dtype.float64 :=
  ⟨rfl, by decide, arangeStop_float32_eval, by decide⟩

/-- C3 amended: for the overloads taking `(start, stop, step)` without a
dtype, the resolved dtype follows the spec rule (`float64`, the
highest-precision float dtype, when start or stop has float kind, otherwise
step's dtype); the single-scalar overload `Arange(stop, device)` instead
resolves to stop's own dtype. -/
theorem arange_dtype_inference_amended :
    (∀ start stop step : Scalar,
        arangeInferredDtype start stop step = specInferredDtype start stop step)
    ∧ (∀ d, GetKind d = DtypeKind.float → GetElementSize d ≤ GetElementSize Dtype.float64)
    ∧ (∀ start stop step : Scalar, ∀ d,
        (ArangeInfer start stop step).2.toOption.map Array.dtype = some d →
          d = arangeInferredDtype start stop step)
    ∧ (∀ stop : Scalar, ∀ d,
        (ArangeStop stop).2.toOption.map Array.dtype = some d → d = stop.dtype) := by
  refine ⟨fun _ _ _ => rfl, ?_, ?_, ?_⟩
  · intro d _
    cases d <;> decide
  · intro start stop step d h
    exact arange_ok_dtype _ _ _ _ _ h
  · intro stop d h
    exact arange_ok_dtype _ _ _ _ _ h

theorem arange_dtype_inference_amended_witness :
    arangeInferredDtype ⟨Dtype.int32, 0⟩ ⟨Dtype.float32, 5⟩ ⟨Dtype.int32, 1⟩
        = specInferredDtype ⟨Dtype.int32, 0⟩ ⟨Dtype.float32, 5⟩ ⟨Dtype.int32, 1⟩
    ∧ GetElementSize Dtype.float32 ≤ GetElementSize Dtype.float64
    ∧ Dtype.float32 = (⟨Dtype.float32, 5⟩ : Scalar).dtype := by
  have h := arange_dtype_inference_amended
  exact ⟨h.1 _ _ _, h.2.1 Dtype.float32 rfl,
    h.2.2.2 ⟨Dtype.float32, 5⟩ Dtype.float32 arangeStop_float32_eval⟩

/-- C7: an `Arange` request with step 0 fails with the InvalidArgument
error (`XchainerError`), and the allocation-request trace is empty, so the
rejection happens before any memory request is issued. -/
theorem arange_zero_step_spec (start stop step : Scalar) (dtype : Dtype)
    (h0 : step.val = 0) :
    Arange start stop step dtype = ([], Except.error Err.invalidArgument) := by
  unfold Arange
  rw [if_pos h0]

theorem arange_zero_step_spec_witness :
    Arange ⟨Dtype.float64, 1⟩ ⟨Dtype.float64, 5⟩ ⟨Dtype.float64, 0⟩ Dtype.float64
      = ([], Except.error Err.invalidArgument) :=
  arange_zero_step_spec _ _ _ _ rfl

/-- C8: an `Arange` request whose resolved dtype is boolean and whose
computed length exceeds 2 fails with the DomainError (`DtypeError`) and an
empty allocation trace; moreover every error path of `Arange` has an empty
allocation trace, so no allocation happens on any error path. -/
theorem arange_bool_length_spec (start stop step : Scalar) (dtype : Dtype) :
    (step.val ≠ 0 → dtype = Dtype.bool → 2 < arangeSize start.val stop.val step.val →
        Arange start stop step dtype = ([], Except.error Err.domainError))
    ∧ (∀ e, (Arange start stop step dtype).2 = Except.error e →
        (Arange start stop step dtype).1 = []) := by
  constructor
  · intro h0 hb hlen
    unfold Arange
    rw [if_neg h0, if_pos ⟨hlen, hb⟩]
  · intro e he
    unfold Arange at he ⊢
    by_cases h0 : step.val = 0
    · rw [if_pos h0]
    · rw [if_neg h0] at he ⊢
      by_cases hb : 2 < arangeSize start.val stop.val step.val ∧ dtype = Dtype.bool
      · rw [if_pos hb]
      · rw [if_neg hb] at he
        exact absurd he (by simp)

theorem arange_bool_length_spec_witness :
    Arange ⟨Dtype.int64, 0⟩ ⟨Dtype.int64, 5⟩ ⟨Dtype.int64, 1⟩ Dtype.bool
      = ([], Except.error Err.domainError)
    ∧ (Arange ⟨Dtype.int64, 0⟩ ⟨Dtype.int64, 5⟩ ⟨Dtype.int64, 1⟩ Dtype.bool).1 = [] := by
  have hsz : 2 < arangeSize 0 5 1 := by
    have hc5 : (⌈(((5:ℚ)) - 0) / 1⌉ : ℤ) = 5 := by
      rw [Int.ceil_eq_iff]
      norm_num
    unfold arangeSize
    rw [if_neg (by norm_num : ¬((1:ℚ) < 0))]
    show 2 < max 0 ⌈(((5:ℚ)) - 0) / 1⌉
    rw [hc5]
    decide
  have h := arange_bool_length_spec ⟨Dtype.int64, 0⟩ ⟨Dtype.int64, 5⟩ ⟨Dtype.int64, 1⟩ Dtype.bool
  have he := h.1 (by norm_num) rfl hsz
  exact ⟨he, h.2 Err.domainError (by rw [he])⟩

/-- C9: the `*Like` factories read only the template's shape and dtype,
discard its strides, and return a contiguous array with the template's
shape and dtype. -/
theorem like_factories_spec (a b : Array) (v : Scalar) :
    ((EmptyLike a).2.shape = a.shape ∧ (EmptyLike a).2.dtype = a.dtype
      ∧ IsContiguous (EmptyLike a).2)
    ∧ ((FullLike a v).2.shape = a.shape ∧ (FullLike a v).2.dtype = a.dtype
      ∧ IsContiguous (FullLike a v).2)
    ∧ ((ZerosLike a).2.shape = a.shape ∧ (ZerosLike a).2.dtype = a.dtype
      ∧ IsContiguous (ZerosLike a).2)
    ∧ ((OnesLike a).2.shape = a.shape ∧ (OnesLike a).2.dtype = a.dtype
      ∧ IsContiguous (OnesLike a).2)
    ∧ (a.shape = b.shape → a.dtype = b.dtype →
        EmptyLike a = EmptyLike b ∧ FullLike a v = FullLike b v
        ∧ ZerosLike a = ZerosLike b ∧ OnesLike a = OnesLike b) := by
  refine ⟨⟨rfl, rfl, rfl⟩, ⟨rfl, rfl, rfl⟩, ⟨rfl, rfl, rfl⟩, ⟨rfl, rfl, rfl⟩, ?_⟩
  intro hs hd
  unfold EmptyLike FullLike ZerosLike OnesLike
  rw [hs, hd]
  exact ⟨rfl, rfl, rfl, rfl⟩

theorem like_factories_spec_witness :
    EmptyLike ⟨[2, 3], [100, 4], Dtype.int32, List.replicate 6 0, [7]⟩
        = EmptyLike ⟨[2, 3], [12, 4], Dtype.int32, [], []⟩
    ∧ IsContiguous (EmptyLike ⟨[2, 3], [100, 4], Dtype.int32, List.replicate 6 0, [7]⟩).2
    ∧ ¬ IsContiguous (⟨[2, 3], [100, 4], Dtype.int32, List.replicate 6 0, [7]⟩ : Array) := by
  have h := like_factories_spec ⟨[2, 3], [100, 4], Dtype.int32, List.replicate 6 0, [7]⟩
      ⟨[2, 3], [12, 4], Dtype.int32, [], []⟩ scalarOne
  exact ⟨(h.2.2.2.2 rfl rfl).1, h.1.2.2, by decide⟩

/-- C10: every array produced by the public construction operations is
contiguous (its strides are the canonical row-major strides for its shape
and dtype), while the internal custom-stride entry point can produce
non-contiguous arrays. -/
theorem construction_contiguity_invariant :
    (∀ (shape : Shape) (dtype : Dtype), IsContiguous (Empty shape dtype).2)
    ∧ (∀ (shape : Shape) (v : Scalar) (dtype : Dtype), IsContiguous (Full shape v dtype).2)
    ∧ (∀ (shape : Shape) (v : Scalar), IsContiguous (FullDefaultDtype shape v).2)
    ∧ (∀ (shape : Shape) (dtype : Dtype), IsContiguous (Zeros shape dtype).2)
    ∧ (∀ (shape : Shape) (dtype : Dtype), IsContiguous (Ones shape dtype).2)
    ∧ (∀ (start stop step : Scalar) (dtype : Dtype),
        (Arange start stop step dtype).2.toOption.elim True IsContiguous)
    ∧ (∀ a : Array, IsContiguous (EmptyLike a).2)
    ∧ (∀ (a : Array) (v : Scalar), IsContiguous (FullLike a v).2)
    ∧ (∀ a : Array, IsContiguous (ZerosLike a).2)
    ∧ (∀ a : Array, IsContiguous (OnesLike a).2)
    ∧ (∀ a : Array, IsContiguous (Copy a))
    ∧ (∃ (shape : Shape) (dtype : Dtype) (strides : Strides),
        ¬ IsContiguous (internal.Empty shape dtype strides).2) := by
  refine ⟨fun _ _ => rfl, fun _ _ _ => rfl, fun _ _ => rfl, fun _ _ => rfl, fun _ _ => rfl,
    ?_, fun _ => rfl, fun _ _ => rfl, fun _ => rfl, fun _ => rfl, fun _ => rfl,
    [4], Dtype.int32, [-4], by decide⟩
  intro start stop step dtype
  unfold Arange
  by_cases h0 : step.val = 0
  · rw [if_pos h0]
    trivial
  · rw [if_neg h0]
    by_cases hb : 2 < arangeSize start.val stop.val step.val ∧ dtype = Dtype.bool
    · rw [if_pos hb]
      trivial
    · rw [if_neg hb]
      exact rfl

end Xchainer
